import Mathlib

/-!
Verification development for the parafile document-organization pipeline.

The definitions below are a shallow embedding of the Python sources:
`parse_naming_pattern`, `get_naming_pattern` and `extract_single_variable`
from `src/ai_processor.py`, and `DocumentHandler.process_file` together
with `ensure_category_folder` from `src/organizer.py`.  External
collaborators (text extraction, the AI classification and filename
generation calls, and the two filesystem primitives that can raise) are
modelled as attempt-indexed oracles, and the filesystem as explicit state.
-/

namespace Parafile

/-- Python exception classes relevant to `process_file`'s handlers:
`PermissionError` versus every other `Exception` subclass. -/
inductive PyExc where
  | perm : PyExc
  | other : PyExc
deriving DecidableEq, Repr

/-! ### `parse_naming_pattern` (src/ai_processor.py, lines 103-134)

The Python code runs `re.findall` with the pattern `\{([^}]+)\}`.
`scanPlaceholders` implements exactly the leftmost, non-overlapping
semantics of that regex over the character list: at a `{` the engine
matches one or more characters other than `}` (greedily, i.e. up to the
first `}`) followed by `}`, captures the span between the braces, and
resumes after the closing brace; otherwise it advances one character. -/

/-- Split a character list at its first `}`: returns the characters
before it and the characters after it, or `none` when no `}` occurs. -/
def splitAtClose : List Char → Option (List Char × List Char)
  | [] => none
  | c :: rest =>
    if c = '}' then some ([], rest)
    else
      match splitAtClose rest with
      | some (content, after) => some (c :: content, after)
      | none => none

theorem splitAtClose_length :
    ∀ (l content after : List Char), splitAtClose l = some (content, after) →
      after.length < l.length := by
  intro l
  induction l with
  | nil => intro content after h; simp [splitAtClose] at h
  | cons c rest ih =>
    intro content after h
    by_cases hc : c = '}'
    · simp [splitAtClose, hc] at h
      simp [← h.2]
    · simp [splitAtClose, hc] at h
      cases hr : splitAtClose rest with
      | none => rw [hr] at h; simp at h
      | some p =>
        rw [hr] at h
        obtain ⟨content', after'⟩ := p
        simp at h
        have := ih content' after' hr
        simp [← h.2]
        omega

/-- The regex-findall scan for `\{([^}]+)\}`, fuelled so that it is
structurally recursive (every loop iteration of the regex engine
consumes at least one character, so fuel equal to the input length is
always enough; `scanAux_fuel` below makes that exact). -/
def scanAux : Nat → List Char → List String
  | 0, _ => []
  | _ + 1, [] => []
  | fuel + 1, c :: rest =>
    if c = '{' then
      match splitAtClose rest with
      | some (content, after) =>
        if content = [] then scanAux fuel rest
        else String.mk content :: scanAux fuel after
      | none => scanAux fuel rest
    else scanAux fuel rest

theorem scanAux_nil : ∀ fuel : Nat, scanAux fuel [] = [] := by
  intro fuel; cases fuel <;> simp [scanAux]

/-- The fuelled scan is independent of the fuel once the fuel covers the
input length, so `parse_naming_pattern` below computes the full
(unbounded) regex scan. -/
theorem scanAux_fuel_irrelevant :
    ∀ (fuel₁ fuel₂ : Nat) (l : List Char), l.length ≤ fuel₁ → l.length ≤ fuel₂ →
      scanAux fuel₁ l = scanAux fuel₂ l := by
  intro fuel₁
  induction fuel₁ with
  | zero =>
    intro fuel₂ l h₁ _
    have : l = [] := List.length_eq_zero.mp (Nat.le_zero.mp h₁)
    subst this
    simp [scanAux_nil]
  | succ f₁ ih =>
    intro fuel₂ l h₁ h₂
    cases l with
    | nil => simp [scanAux_nil]
    | cons c rest =>
      cases fuel₂ with
      | zero => simp at h₂
      | succ f₂ =>
        simp at h₁ h₂
        by_cases hc : c = '{'
        · cases hs : splitAtClose rest with
          | none => simp [scanAux, hc, hs]; exact ih f₂ rest h₁ h₂
          | some p =>
            obtain ⟨content, after⟩ := p
            have hlen := splitAtClose_length rest content after hs
            by_cases hcn : content = []
            · simp [scanAux, hc, hs, hcn]; exact ih f₂ rest h₁ h₂
            · simp [scanAux, hc, hs, hcn]
              exact ih f₂ after (by omega) (by omega)
        · simp [scanAux, hc]; exact ih f₂ rest h₁ h₂

/-- Embedding of `parse_naming_pattern` from `src/ai_processor.py`. -/
def parse_naming_pattern (p : String) : List String :=
  scanAux p.data.length p.data

/-! ### Catalogue lookups and ASCII case mapping -/

/-- One entry of the category catalogue: the Python dict maps a category
name to `{"description": ..., "naming_pattern": ...}`. -/
structure Category where
  name : String
  description : String
  namingPattern : String
deriving DecidableEq, Repr

/-- Embedding of Python `str.upper()` on the ASCII identifiers used here. -/
def upperStr (s : String) : String := String.mk (s.data.map Char.toUpper)

/-- Embedding of Python `str.lower()` on the ASCII suffixes used here. -/
def lowerStr (s : String) : String := String.mk (s.data.map Char.toLower)

/-- Embedding of `get_naming_pattern` (src/ai_processor.py, lines 88-101):
return `categories[category]['naming_pattern']` when the key is present,
`None` otherwise. -/
def get_naming_pattern (category : String) (categories : List Category) : Option String :=
  match categories.find? (fun e => e.name == category) with
  | some e => some e.namingPattern
  | none => none

/-- Embedding of `extract_single_variable` (src/ai_processor.py, lines
136-205).  The chat-completion call plus `json.loads` plus `.get` are
summarized by their observable result: `.error e` when the API call or
the JSON decoding raises, `.ok none` when the decoded object lacks the
requested key, `.ok (some v)` when the key decodes to `v`.  Both failure
shapes produce the `<NAME>` placeholder token of the `except` clause and
the `.get` default. -/
def extract_single_variable (response : Except PyExc (Option String))
    (variableName : String) : String :=
  match response with
  | .ok (some value) => value
  | .ok none => "<" ++ upperStr variableName ++ ">"
  | .error _ => "<" ++ upperStr variableName ++ ">"

/-! ### The `process_file` model (src/organizer.py, lines 124-245)

External effects are attempt-indexed oracles: `extractText` stands for
`extract_text_from_pdf`/`extract_text_from_docx`, `categorize` for
`categorize_document` (either a well-formed classification dict or a
raised exception), `generate` for `generate_ai_filename` (imported by
`src/organizer.py`; its body is not part of the pipeline model — its
per-call behavior is an oracle response), `mkdirExc`/`moveExc` for
exceptions raised by `Path.mkdir` inside `ensure_category_folder` and by
`shutil.move`.  The filesystem is a set of file paths plus a set of
directory paths, and paths are joined with `/` as `pathlib` renders
them. -/

/-- A well-formed result of `categorize_document`: the `category`,
`confidence` and `reasoning` keys of the decoded JSON object. -/
structure Classification where
  category : String
  confidence : Nat
  reasoning : String
deriving DecidableEq, Repr

/-- Attempt-indexed oracle responses for one document's processing. -/
structure Gateways where
  extractText : Nat → Except PyExc String
  categorize : Nat → Except PyExc Classification
  generate : Nat → Except PyExc String
  mkdirExc : Nat → Option PyExc
  moveExc : Nat → Option PyExc

/-- Filesystem state: existing file paths and existing directory paths. -/
structure FS where
  files : List String
  dirs : List String
deriving DecidableEq, Repr

/-- `Path.exists()`: true for files and for directories. -/
def FS.pathExists (fs : FS) (p : String) : Bool :=
  fs.files.contains p || fs.dirs.contains p

/-- The source file handed to `process_file`: directory, stem and
suffix (the suffix includes the leading dot, as `Path.suffix` does). -/
structure SrcFile where
  dir : String
  stem : String
  suffix : String
deriving DecidableEq, Repr

/-- The full original path of the source file. -/
def SrcFile.path (f : SrcFile) : String := f.dir ++ "/" ++ f.stem ++ f.suffix

/-- The configuration fields of `DocumentHandler` that `process_file`
reads (the `variables` dict is only forwarded to the
`generate_ai_filename` oracle, so it is absorbed into that oracle). -/
structure HandlerConfig where
  watched_folder : String
  enable_organization : Bool
  categories : List Category
deriving Repr

/-- Observable log of a `process_file` run: attempt bodies entered,
retry warnings, `time.sleep` delays, error logs, and calls made to the
`generate_ai_filename` gateway. -/
structure Log where
  attemptsStarted : Nat
  warnings : Nat
  sleeps : List Nat
  errors : Nat
  genCalls : Nat
deriving DecidableEq, Repr

/-- The log at entry to `process_file`. -/
def Log.init : Log := ⟨0, 0, [], 0, 0⟩

/-- `max_retries = 3` (src/organizer.py, line 145). -/
def maxRetries : Nat := 3

/-- `retry_delay = 2` (src/organizer.py, line 146). -/
def retryDelay : Nat := 2

/-- Embedding of `ensure_category_folder` (src/organizer.py, lines
38-51): `mkdir(parents=True, exist_ok=True)` on `base / category`,
returning the updated filesystem and the folder path. -/
def ensure_category_folder (fs : FS) (baseFolder categoryName : String) : FS × String :=
  let folder := baseFolder ++ "/" ++ categoryName
  (if fs.dirs.contains folder then fs else { fs with dirs := folder :: fs.dirs }, folder)

/-- The destination candidate the conflict loop builds for counter `k`:
`stem.ext` for `k = 0` (the candidate before the loop runs), and
`stem_k.ext` afterwards. -/
def destCandidate (folder stem ext : String) (k : Nat) : String :=
  if k = 0 then folder ++ "/" ++ stem ++ ext
  else folder ++ "/" ++ stem ++ "_" ++ Nat.repr k ++ ext

/-- The `while dest_path.exists()` conflict loop (src/organizer.py,
lines 210-215), fuelled: each iteration existence-checks the current
candidate and moves to the next counter.  The Python loop does not
terminate when every candidate exists, which the fuel truncates. -/
def resolveLoop (ex : String → Bool) (folder stem ext : String) : Nat → Nat → String
  | k, 0 => destCandidate folder stem ext k
  | k, fuel + 1 =>
    if ex (destCandidate folder stem ext k) then
      resolveLoop ex folder stem ext (k + 1) fuel
    else destCandidate folder stem ext k

/-- Conflict resolution starting from the plain `stem.ext` candidate. -/
def resolveConflict (ex : String → Bool) (folder stem ext : String) (fuel : Nat) : String :=
  resolveLoop ex folder stem ext 0 fuel

/-- One iteration of the `try` body of `process_file` (src/organizer.py,
lines 149-223): extract text, categorize, look up the naming pattern
(`if not naming_pattern` — false for both a missing category and an
empty-string pattern), generate or default the stem, compute the
destination folder (creating the category folder when organization is
enabled), resolve naming conflicts, and move.  Returns the filesystem
and log as mutated so far together with the raised exception or the
destination path. -/
def attemptBody (g : Gateways) (cfg : HandlerConfig) (file : SrcFile)
    (fs : FS) (log : Log) (attempt : Nat) : FS × Log × Except PyExc String :=
  let log := { log with attemptsStarted := log.attemptsStarted + 1 }
  match g.extractText attempt with
  | .error e => (fs, log, .error e)
  | .ok _documentText =>
    match g.categorize attempt with
    | .error e => (fs, log, .error e)
    | .ok cls =>
      let category := cls.category
      let nameStep : Log × Except PyExc String :=
        match get_naming_pattern category cfg.categories with
        | none => (log, .ok "unnamed_file")
        | some p =>
          if p = "" then (log, .ok "unnamed_file")
          else
            match g.generate attempt with
            | .error e => ({ log with genCalls := log.genCalls + 1 }, .error e)
            | .ok n => ({ log with genCalls := log.genCalls + 1 }, .ok n)
      match nameStep with
      | (log₁, .error e) => (fs, log₁, .error e)
      | (log₁, .ok suggestedName) =>
        let folderStep : Except PyExc (FS × String) :=
          if cfg.enable_organization then
            match g.mkdirExc attempt with
            | some e => .error e
            | none => .ok (ensure_category_folder fs cfg.watched_folder category)
          else .ok (fs, cfg.watched_folder)
        match folderStep with
        | .error e => (fs, log₁, .error e)
        | .ok fsFolder =>
          let fs₁ := fsFolder.1
          let destinationFolder := fsFolder.2
          let ext := lowerStr file.suffix
          let destPath := resolveConflict fs₁.pathExists destinationFolder suggestedName ext
            (fs₁.files.length + fs₁.dirs.length + 1)
          match g.moveExc attempt with
          | some e => (fs₁, log₁, .error e)
          | none =>
            ({ files := destPath :: fs₁.files.erase file.path, dirs := fs₁.dirs },
             log₁, .ok destPath)

/-- How a run of `process_file` can end: a successful move, the retry
budget exhausted on `PermissionError`s, the `break` after any other
exception, or an exception escaping the handler chain (never happens:
the two `except` clauses cover every exception class of the model). -/
inductive Outcome where
  | placed : String → Outcome
  | exhausted : Outcome
  | aborted : Outcome
  | crashed : PyExc → Outcome
deriving DecidableEq, Repr

/-- The `for attempt in range(max_retries)` loop with its two `except`
clauses (src/organizer.py, lines 148-245): success returns; a
`PermissionError` before the last attempt logs a warning, sleeps
`retry_delay` and continues; a `PermissionError` on the last attempt
logs an error and lets the loop end; any other exception logs an error
and breaks. -/
def processFrom (g : Gateways) (cfg : HandlerConfig) (file : SrcFile) :
    FS → Log → Nat → Nat → FS × Outcome × Log
  | fs, log, _, 0 => (fs, .exhausted, log)
  | fs, log, attempt, remaining + 1 =>
    match attemptBody g cfg file fs log attempt with
    | (fs₁, log₁, .ok dest) => (fs₁, .placed dest, log₁)
    | (fs₁, log₁, .error .perm) =>
      if attempt < maxRetries - 1 then
        processFrom g cfg file fs₁
          { log₁ with warnings := log₁.warnings + 1, sleeps := log₁.sleeps ++ [retryDelay] }
          (attempt + 1) remaining
      else
        processFrom g cfg file fs₁ { log₁ with errors := log₁.errors + 1 }
          (attempt + 1) remaining
    | (fs₁, log₁, .error .other) =>
      (fs₁, .aborted, { log₁ with errors := log₁.errors + 1 })

/-- Embedding of `DocumentHandler.process_file`: run the retry loop from
attempt 0 with the full budget. -/
def process_file (g : Gateways) (cfg : HandlerConfig) (file : SrcFile) (fs : FS) :
    FS × Outcome × Log :=
  processFrom g cfg file fs Log.init 0 maxRetries

/-- The success/failure classification of one attempt.  It depends only
on the oracles and the catalogue — never on the filesystem or the log —
which `attemptBody_excShape` below proves. -/
def attemptOutcome (g : Gateways) (cfg : HandlerConfig) (attempt : Nat) :
    Except PyExc Unit :=
  let placeSteps : Except PyExc Unit :=
    let moveStep : Except PyExc Unit :=
      match g.moveExc attempt with
      | some e => .error e
      | none => .ok ()
    if cfg.enable_organization then
      match g.mkdirExc attempt with
      | some e => .error e
      | none => moveStep
    else moveStep
  match g.extractText attempt with
  | .error e => .error e
  | .ok _ =>
    match g.categorize attempt with
    | .error e => .error e
    | .ok cls =>
      match get_naming_pattern cls.category cfg.categories with
      | none => placeSteps
      | some p =>
        if p = "" then placeSteps
        else
          match g.generate attempt with
          | .error e => .error e
          | .ok _ => placeSteps

/-- Forget the payload of a successful attempt. -/
def excShape : Except PyExc String → Except PyExc Unit
  | .ok _ => .ok ()
  | .error e => .error e

/-- The outcome shape of an attempt depends only on the oracles and the
catalogue, not on the filesystem or the log. -/
theorem attemptBody_excShape (g : Gateways) (cfg : HandlerConfig) (file : SrcFile)
    (fs : FS) (log : Log) (attempt : Nat) :
    excShape (attemptBody g cfg file fs log attempt).2.2 = attemptOutcome g cfg attempt := by
  unfold attemptBody attemptOutcome
  cases hx : g.extractText attempt with
  | error e => simp [excShape]
  | ok t =>
    cases hc : g.categorize attempt with
    | error e => simp [excShape]
    | ok cls =>
      cases hp : get_naming_pattern cls.category cfg.categories with
      | none =>
        by_cases horg : cfg.enable_organization <;>
          cases hm : g.mkdirExc attempt <;>
          cases hv : g.moveExc attempt <;>
          simp [hp, horg, hm, hv, excShape]
      | some p =>
        by_cases hpe : p = "" <;>
          cases hg : g.generate attempt <;>
          by_cases horg : cfg.enable_organization <;>
          cases hm : g.mkdirExc attempt <;>
          cases hv : g.moveExc attempt <;>
          simp [hp, hpe, hg, horg, hm, hv, excShape]

/-- An attempt body bumps the attempt counter, never touches the retry
warnings, sleeps or error counters (those belong to the retry loop), and
leaves the set of files unchanged whenever the attempt raises. -/
theorem attemptBody_invariants (g : Gateways) (cfg : HandlerConfig) (file : SrcFile)
    (fs : FS) (log : Log) (attempt : Nat) :
    ((attemptBody g cfg file fs log attempt).2.1).attemptsStarted = log.attemptsStarted + 1 ∧
    ((attemptBody g cfg file fs log attempt).2.1).warnings = log.warnings ∧
    ((attemptBody g cfg file fs log attempt).2.1).sleeps = log.sleeps ∧
    ((attemptBody g cfg file fs log attempt).2.1).errors = log.errors ∧
    (∀ e, (attemptBody g cfg file fs log attempt).2.2 = Except.error e →
      ((attemptBody g cfg file fs log attempt).1).files = fs.files) := by
  unfold attemptBody
  cases hx : g.extractText attempt with
  | error e => simp
  | ok t =>
    cases hc : g.categorize attempt with
    | error e => simp
    | ok cls =>
      cases hp : get_naming_pattern cls.category cfg.categories with
      | none =>
        by_cases horg : cfg.enable_organization <;>
          cases hm : g.mkdirExc attempt <;>
          cases hv : g.moveExc attempt <;>
          (simp [hp, horg, hm, hv, ensure_category_folder]; try (split <;> rfl))
      | some p =>
        by_cases hpe : p = "" <;>
          cases hg : g.generate attempt <;>
          by_cases horg : cfg.enable_organization <;>
          cases hm : g.mkdirExc attempt <;>
          cases hv : g.moveExc attempt <;>
          (simp [hp, hpe, hg, horg, hm, hv, ensure_category_folder]; try (split <;> rfl))

/-- A failing attempt outcome forces the attempt body to raise the same
exception, whatever the filesystem and log. -/
theorem attemptBody_error_of_outcome (g : Gateways) (cfg : HandlerConfig) (attempt : Nat)
    (e : PyExc) (h : attemptOutcome g cfg attempt = Except.error e)
    (file : SrcFile) (fs : FS) (log : Log) :
    (attemptBody g cfg file fs log attempt).2.2 = Except.error e := by
  have hsh := attemptBody_excShape g cfg file fs log attempt
  rw [h] at hsh
  cases hr : (attemptBody g cfg file fs log attempt).2.2 with
  | ok d => rw [hr] at hsh; simp [excShape] at hsh
  | error e' => rw [hr] at hsh; simp [excShape] at hsh; rw [hsh]

/-- A succeeding attempt outcome forces the attempt body to return some
destination path, whatever the filesystem and log. -/
theorem attemptBody_ok_of_outcome (g : Gateways) (cfg : HandlerConfig) (attempt : Nat)
    (h : attemptOutcome g cfg attempt = Except.ok ())
    (file : SrcFile) (fs : FS) (log : Log) :
    ∃ d, (attemptBody g cfg file fs log attempt).2.2 = Except.ok d := by
  have hsh := attemptBody_excShape g cfg file fs log attempt
  rw [h] at hsh
  cases hr : (attemptBody g cfg file fs log attempt).2.2 with
  | ok d => exact ⟨d, rfl⟩
  | error e' => rw [hr] at hsh; simp [excShape] at hsh


/-- C1: For every per-file processing attempt by `process_file`, only
`PermissionError`s arising anywhere in the attempt are retried, up to 3
attempts total with a fixed 2-time-unit delay between attempts; every
other failure class aborts after its first occurrence with zero retries;
a successful placement ends the retry loop immediately; and in every
failure outcome the source file is left unmodified (the set of files on
disk is unchanged). -/
theorem process_file_retry_policy (g : Gateways) (cfg : HandlerConfig)
    (file : SrcFile) (fs : FS) :
    (attemptOutcome g cfg 0 = Except.error PyExc.other →
      (process_file g cfg file fs).2.1 = Outcome.aborted ∧
      (process_file g cfg file fs).2.2.attemptsStarted = 1 ∧
      (process_file g cfg file fs).2.2.warnings = 0 ∧
      (process_file g cfg file fs).2.2.sleeps = [] ∧
      (process_file g cfg file fs).1.files = fs.files) ∧
    (attemptOutcome g cfg 0 = Except.ok () →
      (∃ d, (process_file g cfg file fs).2.1 = Outcome.placed d) ∧
      (process_file g cfg file fs).2.2.attemptsStarted = 1 ∧
      (process_file g cfg file fs).2.2.warnings = 0 ∧
      (process_file g cfg file fs).2.2.sleeps = []) ∧
    (attemptOutcome g cfg 0 = Except.error PyExc.perm →
      attemptOutcome g cfg 1 = Except.ok () →
      (∃ d, (process_file g cfg file fs).2.1 = Outcome.placed d) ∧
      (process_file g cfg file fs).2.2.attemptsStarted = 2 ∧
      (process_file g cfg file fs).2.2.warnings = 1 ∧
      (process_file g cfg file fs).2.2.sleeps = [retryDelay]) ∧
    (attemptOutcome g cfg 0 = Except.error PyExc.perm →
      attemptOutcome g cfg 1 = Except.error PyExc.other →
      (process_file g cfg file fs).2.1 = Outcome.aborted ∧
      (process_file g cfg file fs).2.2.attemptsStarted = 2 ∧
      (process_file g cfg file fs).2.2.warnings = 1 ∧
      (process_file g cfg file fs).2.2.sleeps = [retryDelay] ∧
      (process_file g cfg file fs).1.files = fs.files) ∧
    (attemptOutcome g cfg 0 = Except.error PyExc.perm →
      attemptOutcome g cfg 1 = Except.error PyExc.perm →
      attemptOutcome g cfg 2 = Except.ok () →
      (∃ d, (process_file g cfg file fs).2.1 = Outcome.placed d) ∧
      (process_file g cfg file fs).2.2.attemptsStarted = 3 ∧
      (process_file g cfg file fs).2.2.warnings = 2 ∧
      (process_file g cfg file fs).2.2.sleeps = [retryDelay, retryDelay]) ∧
    (attemptOutcome g cfg 0 = Except.error PyExc.perm →
      attemptOutcome g cfg 1 = Except.error PyExc.perm →
      attemptOutcome g cfg 2 = Except.error PyExc.perm →
      (process_file g cfg file fs).2.1 = Outcome.exhausted ∧
      (process_file g cfg file fs).2.2.attemptsStarted = 3 ∧
      (process_file g cfg file fs).2.2.warnings = 2 ∧
      (process_file g cfg file fs).2.2.sleeps = [retryDelay, retryDelay] ∧
      (process_file g cfg file fs).2.2.errors = 1 ∧
      (process_file g cfg file fs).1.files = fs.files) ∧
    (attemptOutcome g cfg 0 = Except.error PyExc.perm →
      attemptOutcome g cfg 1 = Except.error PyExc.perm →
      attemptOutcome g cfg 2 = Except.error PyExc.other →
      (process_file g cfg file fs).2.1 = Outcome.aborted ∧
      (process_file g cfg file fs).2.2.attemptsStarted = 3 ∧
      (process_file g cfg file fs).2.2.warnings = 2 ∧
      (process_file g cfg file fs).2.2.sleeps = [retryDelay, retryDelay] ∧
      (process_file g cfg file fs).1.files = fs.files) := by
  refine ⟨?_, ?_, ?_, ?_, ?_, ?_, ?_⟩
  -- non-permission failure on the first attempt: abort, no retry, files untouched
  · intro h0
    rcases hb0 : attemptBody g cfg file fs Log.init 0 with ⟨fs₁, log₁, r₁⟩
    have hr0 := attemptBody_error_of_outcome g cfg 0 PyExc.other h0 file fs Log.init
    rw [hb0] at hr0
    simp at hr0
    subst hr0
    have hinv0 := attemptBody_invariants g cfg file fs Log.init 0
    rw [hb0] at hinv0
    simp [Log.init] at hinv0
    have hrun : process_file g cfg file fs =
        (fs₁, Outcome.aborted, { log₁ with errors := log₁.errors + 1 }) := by
      simp [process_file, maxRetries, processFrom, hb0]
    rw [hrun]
    exact ⟨rfl, by show log₁.attemptsStarted = 1; omega, hinv0.2.1, hinv0.2.2.1, hinv0.2.2.2.2⟩
  -- success on the first attempt: placed immediately, single attempt
  · intro h0
    rcases hb0 : attemptBody g cfg file fs Log.init 0 with ⟨fs₁, log₁, r₁⟩
    obtain ⟨d, hd⟩ := attemptBody_ok_of_outcome g cfg 0 h0 file fs Log.init
    rw [hb0] at hd
    simp at hd
    subst hd
    have hinv0 := attemptBody_invariants g cfg file fs Log.init 0
    rw [hb0] at hinv0
    simp [Log.init] at hinv0
    have hrun : process_file g cfg file fs = (fs₁, Outcome.placed d, log₁) := by
      simp [process_file, maxRetries, processFrom, hb0]
    rw [hrun]
    exact ⟨⟨d, rfl⟩, by show log₁.attemptsStarted = 1; omega, hinv0.2.1, hinv0.2.2.1⟩
  -- permission failure then success: one retry warning, one delay
  · intro h0 h1
    rcases hb0 : attemptBody g cfg file fs Log.init 0 with ⟨fs₁, log₁, r₁⟩
    have hr0 := attemptBody_error_of_outcome g cfg 0 PyExc.perm h0 file fs Log.init
    rw [hb0] at hr0
    simp at hr0
    subst hr0
    have hinv0 := attemptBody_invariants g cfg file fs Log.init 0
    rw [hb0] at hinv0
    simp [Log.init] at hinv0
    set log₁' : Log :=
      { log₁ with warnings := log₁.warnings + 1, sleeps := log₁.sleeps ++ [retryDelay] } with hlog₁'
    rcases hb1 : attemptBody g cfg file fs₁ log₁' 1 with ⟨fs₂, log₂, r₂⟩
    obtain ⟨d, hd⟩ := attemptBody_ok_of_outcome g cfg 1 h1 file fs₁ log₁'
    rw [hb1] at hd
    simp at hd
    subst hd
    have hinv1 := attemptBody_invariants g cfg file fs₁ log₁' 1
    rw [hb1] at hinv1
    simp [hlog₁'] at hinv1
    have hrun : process_file g cfg file fs = (fs₂, Outcome.placed d, log₂) := by
      simp [process_file, maxRetries, processFrom, hb0, hb1]
    rw [hrun]
    refine ⟨⟨d, rfl⟩, ?_, ?_, ?_⟩
    · show log₂.attemptsStarted = 2
      omega
    · show log₂.warnings = 1
      omega
    · show log₂.sleeps = [retryDelay]
      rw [hinv1.2.2.1, hinv0.2.2.1]
      rfl
  -- permission failure then a non-permission failure: abort after the retry
  · intro h0 h1
    rcases hb0 : attemptBody g cfg file fs Log.init 0 with ⟨fs₁, log₁, r₁⟩
    have hr0 := attemptBody_error_of_outcome g cfg 0 PyExc.perm h0 file fs Log.init
    rw [hb0] at hr0
    simp at hr0
    subst hr0
    have hinv0 := attemptBody_invariants g cfg file fs Log.init 0
    rw [hb0] at hinv0
    simp [Log.init] at hinv0
    set log₁' : Log :=
      { log₁ with warnings := log₁.warnings + 1, sleeps := log₁.sleeps ++ [retryDelay] } with hlog₁'
    rcases hb1 : attemptBody g cfg file fs₁ log₁' 1 with ⟨fs₂, log₂, r₂⟩
    have hr1 := attemptBody_error_of_outcome g cfg 1 PyExc.other h1 file fs₁ log₁'
    rw [hb1] at hr1
    simp at hr1
    subst hr1
    have hinv1 := attemptBody_invariants g cfg file fs₁ log₁' 1
    rw [hb1] at hinv1
    simp [hlog₁'] at hinv1
    have hrun : process_file g cfg file fs =
        (fs₂, Outcome.aborted, { log₂ with errors := log₂.errors + 1 }) := by
      simp [process_file, maxRetries, processFrom, hb0, hb1]
    rw [hrun]
    refine ⟨rfl, ?_, ?_, ?_, ?_⟩
    · show log₂.attemptsStarted = 2
      omega
    · show log₂.warnings = 1
      omega
    · show log₂.sleeps = [retryDelay]
      rw [hinv1.2.2.1, hinv0.2.2.1]
      rfl
    · show fs₂.files = fs.files
      rw [hinv1.2.2.2.2, hinv0.2.2.2.2]
  -- two permission failures then success: two warnings, two delays
  · intro h0 h1 h2
    rcases hb0 : attemptBody g cfg file fs Log.init 0 with ⟨fs₁, log₁, r₁⟩
    have hr0 := attemptBody_error_of_outcome g cfg 0 PyExc.perm h0 file fs Log.init
    rw [hb0] at hr0
    simp at hr0
    subst hr0
    have hinv0 := attemptBody_invariants g cfg file fs Log.init 0
    rw [hb0] at hinv0
    simp [Log.init] at hinv0
    set log₁' : Log :=
      { log₁ with warnings := log₁.warnings + 1, sleeps := log₁.sleeps ++ [retryDelay] } with hlog₁'
    rcases hb1 : attemptBody g cfg file fs₁ log₁' 1 with ⟨fs₂, log₂, r₂⟩
    have hr1 := attemptBody_error_of_outcome g cfg 1 PyExc.perm h1 file fs₁ log₁'
    rw [hb1] at hr1
    simp at hr1
    subst hr1
    have hinv1 := attemptBody_invariants g cfg file fs₁ log₁' 1
    rw [hb1] at hinv1
    simp [hlog₁'] at hinv1
    set log₂' : Log :=
      { log₂ with warnings := log₂.warnings + 1, sleeps := log₂.sleeps ++ [retryDelay] } with hlog₂'
    rcases hb2 : attemptBody g cfg file fs₂ log₂' 2 with ⟨fs₃, log₃, r₃⟩
    obtain ⟨d, hd⟩ := attemptBody_ok_of_outcome g cfg 2 h2 file fs₂ log₂'
    rw [hb2] at hd
    simp at hd
    subst hd
    have hinv2 := attemptBody_invariants g cfg file fs₂ log₂' 2
    rw [hb2] at hinv2
    simp [hlog₂'] at hinv2
    have hrun : process_file g cfg file fs = (fs₃, Outcome.placed d, log₃) := by
      simp [process_file, maxRetries, processFrom, hb0, hb1, hb2]
    rw [hrun]
    refine ⟨⟨d, rfl⟩, ?_, ?_, ?_⟩
    · show log₃.attemptsStarted = 3
      omega
    · show log₃.warnings = 2
      omega
    · show log₃.sleeps = [retryDelay, retryDelay]
      rw [hinv2.2.2.1, hinv1.2.2.1, hinv0.2.2.1]
      rfl
  -- three permission failures: retries exhausted, files untouched
  · intro h0 h1 h2
    rcases hb0 : attemptBody g cfg file fs Log.init 0 with ⟨fs₁, log₁, r₁⟩
    have hr0 := attemptBody_error_of_outcome g cfg 0 PyExc.perm h0 file fs Log.init
    rw [hb0] at hr0
    simp at hr0
    subst hr0
    have hinv0 := attemptBody_invariants g cfg file fs Log.init 0
    rw [hb0] at hinv0
    simp [Log.init] at hinv0
    set log₁' : Log :=
      { log₁ with warnings := log₁.warnings + 1, sleeps := log₁.sleeps ++ [retryDelay] } with hlog₁'
    rcases hb1 : attemptBody g cfg file fs₁ log₁' 1 with ⟨fs₂, log₂, r₂⟩
    have hr1 := attemptBody_error_of_outcome g cfg 1 PyExc.perm h1 file fs₁ log₁'
    rw [hb1] at hr1
    simp at hr1
    subst hr1
    have hinv1 := attemptBody_invariants g cfg file fs₁ log₁' 1
    rw [hb1] at hinv1
    simp [hlog₁'] at hinv1
    set log₂' : Log :=
      { log₂ with warnings := log₂.warnings + 1, sleeps := log₂.sleeps ++ [retryDelay] } with hlog₂'
    rcases hb2 : attemptBody g cfg file fs₂ log₂' 2 with ⟨fs₃, log₃, r₃⟩
    have hr2 := attemptBody_error_of_outcome g cfg 2 PyExc.perm h2 file fs₂ log₂'
    rw [hb2] at hr2
    simp at hr2
    subst hr2
    have hinv2 := attemptBody_invariants g cfg file fs₂ log₂' 2
    rw [hb2] at hinv2
    simp [hlog₂'] at hinv2
    have hrun : process_file g cfg file fs =
        (fs₃, Outcome.exhausted, { log₃ with errors := log₃.errors + 1 }) := by
      simp [process_file, maxRetries, processFrom, hb0, hb1, hb2]
    rw [hrun]
    refine ⟨rfl, ?_, ?_, ?_, ?_, ?_⟩
    · show log₃.attemptsStarted = 3
      omega
    · show log₃.warnings = 2
      omega
    · show log₃.sleeps = [retryDelay, retryDelay]
      rw [hinv2.2.2.1, hinv1.2.2.1, hinv0.2.2.1]
      rfl
    · show log₃.errors + 1 = 1
      omega
    · show fs₃.files = fs.files
      rw [hinv2.2.2.2.2, hinv1.2.2.2.2, hinv0.2.2.2.2]
  -- two permission failures then a non-permission failure: abort on the
  -- third attempt, no further retries, files untouched
  · intro h0 h1 h2
    rcases hb0 : attemptBody g cfg file fs Log.init 0 with ⟨fs₁, log₁, r₁⟩
    have hr0 := attemptBody_error_of_outcome g cfg 0 PyExc.perm h0 file fs Log.init
    rw [hb0] at hr0
    simp at hr0
    subst hr0
    have hinv0 := attemptBody_invariants g cfg file fs Log.init 0
    rw [hb0] at hinv0
    simp [Log.init] at hinv0
    set log₁' : Log :=
      { log₁ with warnings := log₁.warnings + 1, sleeps := log₁.sleeps ++ [retryDelay] } with hlog₁'
    rcases hb1 : attemptBody g cfg file fs₁ log₁' 1 with ⟨fs₂, log₂, r₂⟩
    have hr1 := attemptBody_error_of_outcome g cfg 1 PyExc.perm h1 file fs₁ log₁'
    rw [hb1] at hr1
    simp at hr1
    subst hr1
    have hinv1 := attemptBody_invariants g cfg file fs₁ log₁' 1
    rw [hb1] at hinv1
    simp [hlog₁'] at hinv1
    set log₂' : Log :=
      { log₂ with warnings := log₂.warnings + 1, sleeps := log₂.sleeps ++ [retryDelay] } with hlog₂'
    rcases hb2 : attemptBody g cfg file fs₂ log₂' 2 with ⟨fs₃, log₃, r₃⟩
    have hr2 := attemptBody_error_of_outcome g cfg 2 PyExc.other h2 file fs₂ log₂'
    rw [hb2] at hr2
    simp at hr2
    subst hr2
    have hinv2 := attemptBody_invariants g cfg file fs₂ log₂' 2
    rw [hb2] at hinv2
    simp [hlog₂'] at hinv2
    have hrun : process_file g cfg file fs =
        (fs₃, Outcome.aborted, { log₃ with errors := log₃.errors + 1 }) := by
      simp [process_file, maxRetries, processFrom, hb0, hb1, hb2]
    rw [hrun]
    refine ⟨rfl, ?_, ?_, ?_, ?_⟩
    · show log₃.attemptsStarted = 3
      omega
    · show log₃.warnings = 2
      omega
    · show log₃.sleeps = [retryDelay, retryDelay]
      rw [hinv2.2.2.1, hinv1.2.2.1, hinv0.2.2.1]
      rfl
    · show fs₃.files = fs.files
      rw [hinv2.2.2.2.2, hinv1.2.2.2.2, hinv0.2.2.2.2]

/-- Gateways for the C1 witness scenario: the text extractor raises
`PermissionError` on the first two attempts and succeeds on the third;
every other step succeeds. -/
def c1Gateways : Gateways :=
  ⟨fun attempt => if attempt < 2 then Except.error PyExc.perm else Except.ok "Invoice text",
   fun _ => Except.ok ⟨"Invoices", 95, "contains invoice data"⟩,
   fun _ => Except.ok "Acme_001",
   fun _ => none,
   fun _ => none⟩

/-- Configuration for the C1 witness scenario. -/
def c1Config : HandlerConfig :=
  ⟨"W", true, [⟨"Invoices", "Customer invoices", "{company}_{invoice_id}"⟩]⟩

/-- Source file for the C1 witness scenario. -/
def c1File : SrcFile := ⟨"W", "invoice", ".pdf"⟩

/-- Initial filesystem for the C1 witness scenario. -/
def c1Fs : FS := ⟨["W/invoice.pdf"], []⟩

/-- Witness for C1 at a concrete input: two permission failures followed
by success yield a placement with exactly two retry warnings and two
2-unit delays. -/
theorem process_file_retry_policy_witness :
    (∃ d, (process_file c1Gateways c1Config c1File c1Fs).2.1 = Outcome.placed d) ∧
    (process_file c1Gateways c1Config c1File c1Fs).2.2.attemptsStarted = 3 ∧
    (process_file c1Gateways c1Config c1File c1Fs).2.2.warnings = 2 ∧
    (process_file c1Gateways c1Config c1File c1Fs).2.2.sleeps = [retryDelay, retryDelay] := by
  have h := process_file_retry_policy c1Gateways c1Config c1File c1Fs
  exact h.2.2.2.2.1 rfl rfl rfl

/-- The retry loop can only end in a placement, in retry exhaustion, or
in an abort — one arm per `except` clause plus the `return`. -/
theorem processFrom_no_crash (g : Gateways) (cfg : HandlerConfig) (file : SrcFile) :
    ∀ (rem : Nat) (fs : FS) (log : Log) (attempt : Nat),
      (∃ d, (processFrom g cfg file fs log attempt rem).2.1 = Outcome.placed d) ∨
      (processFrom g cfg file fs log attempt rem).2.1 = Outcome.exhausted ∨
      (processFrom g cfg file fs log attempt rem).2.1 = Outcome.aborted := by
  intro rem
  induction rem with
  | zero => intro fs log attempt; right; left; rfl
  | succ r ih =>
    intro fs log attempt
    rcases hb : attemptBody g cfg file fs log attempt with ⟨fs₁, log₁, r₁⟩
    cases r₁ with
    | ok d => left; exact ⟨d, by simp [processFrom, hb]⟩
    | error e =>
      cases e with
      | perm =>
        by_cases hlt : attempt < maxRetries - 1
        · simpa [processFrom, hb, hlt] using ih fs₁
            { log₁ with warnings := log₁.warnings + 1, sleeps := log₁.sleeps ++ [retryDelay] }
            (attempt + 1)
        · simpa [processFrom, hb, hlt] using ih fs₁
            { log₁ with errors := log₁.errors + 1 } (attempt + 1)
      | other => right; right; simp [processFrom, hb]

/-- C9: Every exception raised by any step of a document's processing is
consumed by `process_file`'s handler chain: the run always ends in one
of the normal outcomes (placement, exhausted retries, or an abort) and
never in an escaped exception, so a per-document failure cannot crash
the watcher. -/
theorem process_file_never_crashes (g : Gateways) (cfg : HandlerConfig)
    (file : SrcFile) (fs : FS) :
    (∃ d, (process_file g cfg file fs).2.1 = Outcome.placed d) ∨
    (process_file g cfg file fs).2.1 = Outcome.exhausted ∨
    (process_file g cfg file fs).2.1 = Outcome.aborted :=
  processFrom_no_crash g cfg file maxRetries fs Log.init 0

/-- The conflict loop stops at the first free counter: if every earlier
candidate exists and candidate `k + d` does not, it returns candidate
`k + d`. -/
theorem resolveLoop_least (ex : String → Bool) (folder stem ext : String) :
    ∀ (fuel k d : Nat), d < fuel →
      (∀ j, j < d → ex (destCandidate folder stem ext (k + j)) = true) →
      ex (destCandidate folder stem ext (k + d)) = false →
      resolveLoop ex folder stem ext k fuel = destCandidate folder stem ext (k + d) := by
  intro fuel
  induction fuel with
  | zero => intro k d hd; exact absurd hd (Nat.not_lt_zero d)
  | succ f ih =>
    intro k d hd hall hfree
    cases d with
    | zero =>
      simp at hfree
      simp [resolveLoop, hfree]
    | succ d' =>
      have h0 : ex (destCandidate folder stem ext k) = true := by
        have := hall 0 (by omega)
        simpa using this
      have hrec := ih (k + 1) d' (by omega)
        (fun j hj => by
          have e : k + 1 + j = k + (j + 1) := by omega
          rw [e]
          exact hall (j + 1) (by omega))
        (by
          have e : k + 1 + d' = k + (d' + 1) := by omega
          rw [e]
          exact hfree)
      rw [resolveLoop, if_pos h0, hrec]
      congr 1
      omega

/-- C4: Conflict resolution returns `stem.ext` when nothing exists at
that path, and otherwise the candidate with the smallest counter `d`
whose path does not exist at check time; in particular with `X.pdf`
present the result is `X_1.pdf`, and with `X.pdf` and `X_1.pdf` both
present it is `X_2.pdf`. -/
theorem resolveConflict_spec :
    (∀ (ex : String → Bool) (folder stem ext : String) (fuel : Nat),
       ex (destCandidate folder stem ext 0) = false →
       resolveConflict ex folder stem ext fuel = destCandidate folder stem ext 0) ∧
    (∀ (ex : String → Bool) (folder stem ext : String) (fuel d : Nat),
       d < fuel →
       (∀ j, j < d → ex (destCandidate folder stem ext j) = true) →
       ex (destCandidate folder stem ext d) = false →
       resolveConflict ex folder stem ext fuel = destCandidate folder stem ext d) ∧
    resolveConflict (fun p => p == "D/X.pdf") "D" "X" ".pdf" 3 = "D/X_1.pdf" ∧
    resolveConflict (fun p => p == "D/X.pdf" || p == "D/X_1.pdf") "D" "X" ".pdf" 4 = "D/X_2.pdf" := by
  refine ⟨?_, ?_, by decide, by decide⟩
  · intro ex folder stem ext fuel h
    cases fuel with
    | zero => rfl
    | succ f => simp [resolveConflict, resolveLoop, h]
  · intro ex folder stem ext fuel d hd hall hfree
    have := resolveLoop_least ex folder stem ext fuel 0 d hd
      (fun j hj => by simpa using hall j hj) (by simpa using hfree)
    simpa [resolveConflict] using this

/-- Witness for C4: with `D/X.pdf` the only existing path, the least
free counter is 1, and the general clause yields `D/X_1.pdf`. -/
theorem resolveConflict_spec_witness :
    resolveConflict (fun p => p == "D/X.pdf") "D" "X" ".pdf" 5 = "D/X_1.pdf" :=
  resolveConflict_spec.2.1 (fun p => p == "D/X.pdf") "D" "X" ".pdf" 5 1
    (by decide) (by decide) (by decide)

/-- C5: Any extraction-gateway failure or malformed response during
single-variable extraction yields the deterministic placeholder token —
the variable name uppercased and wrapped in angle brackets — and the
function returns that token normally rather than raising; concretely,
`company_name` yields `<COMPANY_NAME>`. -/
theorem extract_single_variable_failure_spec :
    (∀ (name : String) (e : PyExc),
       extract_single_variable (Except.error e) name = "<" ++ upperStr name ++ ">") ∧
    (∀ name : String,
       extract_single_variable (Except.ok none) name = "<" ++ upperStr name ++ ">") ∧
    extract_single_variable (Except.error PyExc.other) "company_name" = "<COMPANY_NAME>" ∧
    extract_single_variable (Except.ok none) "company_name" = "<COMPANY_NAME>" := by
  exact ⟨fun name e => rfl, fun name => rfl, by decide, by decide⟩

/-- C7: Parsing a naming pattern returns the ordered list of placeholder
names, duplicates preserved and non-placeholder text ignored, on the
three specified examples. -/
theorem parse_naming_pattern_examples :
    parse_naming_pattern "{date}_{company}_{document_type}.pdf" =
      ["date", "company", "document_type"] ∧
    parse_naming_pattern "simple_filename.txt" = [] ∧
    parse_naming_pattern "{date}_{date}_{company}.pdf" = ["date", "date", "company"] := by
  exact ⟨by decide, by decide, by decide⟩

/-- C8 (code bug): on the nested-brace pattern `file_{meta{data}}_end.txt`
the regex `\x7b([^\x7d]+)\x7d` of `parse_naming_pattern` DOES match the
nested span as a single unit — the character class excludes only `\x7d`,
not `\x7b` — returning the one capture `meta{data`, which itself contains
an embedded `{`.  The repository's own test
(`test_pattern_with_nested_braces`) expects `[]` here, so the code
contradicts its own test suite. -/
theorem parse_naming_pattern_nested_braces_bug :
    parse_naming_pattern "file_\x7bmeta\x7bdata\x7d\x7d_end.txt" = ["meta\x7bdata"] ∧
    '{' ∈ "meta\x7bdata".data := by
  exact ⟨by decide, by decide⟩

/-- When the plain `stem.ext` candidate does not exist, the conflict loop
returns it unchanged, whatever the fuel. -/
theorem resolveConflict_zero (ex : String → Bool) (folder stem ext : String) (fuel : Nat)
    (h : ex (destCandidate folder stem ext 0) = false) :
    resolveConflict ex folder stem ext fuel = destCandidate folder stem ext 0 := by
  cases fuel with
  | zero => rfl
  | succ f => simp [resolveConflict, resolveLoop, h]

/-- A path strictly inside a folder is a different string from the
folder itself. -/
theorem child_ne_folder (folder u e : String) : folder ++ "/" ++ u ++ e ≠ folder := by
  intro h
  have hlen := congrArg String.length h
  rw [String.length_append, String.length_append, String.length_append] at hlen
  have h1 : ("/" : String).length = 1 := rfl
  rw [h1] at hlen
  omega

/-- Creating the category folder does not make any other path exist. -/
theorem pathExists_ensure (fs : FS) (base cat p : String)
    (hfile : fs.pathExists p = false) (hne : p ≠ base ++ "/" ++ cat) :
    ((ensure_category_folder fs base cat).1).pathExists p = false := by
  have h1 := hfile
  simp [FS.pathExists] at h1
  by_cases hc : (base ++ "/" ++ cat) ∈ fs.dirs <;>
    simp [ensure_category_folder, hc, FS.pathExists, hne, h1]

/-- After `ensure_category_folder` the category folder exists. -/
theorem mem_dirs_ensure (fs : FS) (base cat : String) :
    (base ++ "/" ++ cat) ∈ ((ensure_category_folder fs base cat).1).dirs := by
  by_cases hc : (base ++ "/" ++ cat) ∈ fs.dirs <;>
    simp [ensure_category_folder, hc]

/-- Gateways for the C2 counterexample: classification names `Mystery`,
a category that is not in the catalogue; every pipeline step succeeds. -/
def c2Gateways : Gateways :=
  ⟨fun _ => Except.ok "Meeting notes",
   fun _ => Except.ok ⟨"Mystery", 88, "looks mysterious"⟩,
   fun _ => Except.ok "unused",
   fun _ => none,
   fun _ => none⟩

/-- Catalogue for the C2 counterexample: it contains `General` (with the
default pattern) but no `Mystery`. -/
def c2Config : HandlerConfig :=
  ⟨"W", true, [⟨"General", "Default category", "{original_name}"⟩]⟩

/-- Source file for the C2 counterexample. -/
def c2File : SrcFile := ⟨"W", "doc", ".pdf"⟩

/-- Initial filesystem for the C2 counterexample. -/
def c2Fs : FS := ⟨["W/doc.pdf"], []⟩

/-- C2 counterexample: the classification result `Mystery` names no
catalogue category, yet the pipeline does NOT substitute `General`: it
keeps `Mystery`, creates the destination folder `W/Mystery` (a folder
named after a non-catalogue category), and places the file there. -/
theorem process_file_unknown_category_counterexample :
    process_file c2Gateways c2Config c2File c2Fs =
      (⟨["W/Mystery/unnamed_file.pdf"], ["W/Mystery"]⟩,
       Outcome.placed "W/Mystery/unnamed_file.pdf", ⟨1, 0, [], 0, 0⟩) ∧
    c2Config.categories.find? (fun e => e.name == "Mystery") = none ∧
    c2Config.categories.find? (fun e => e.name == "General") ≠ none := by
  exact ⟨by decide, by decide, by decide⟩

/-- C2 amended: a classification result naming a non-catalogue category
is kept, not replaced by `General`; the naming-pattern lookup then fails,
so the stem falls back to `unnamed_file` with no generation-gateway call,
and (with organization enabled) a destination folder named after the
non-catalogue category is created and used. -/
theorem process_file_unknown_category_amended (g : Gateways) (cfg : HandlerConfig)
    (file : SrcFile) (fs : FS) (t : String) (cls : Classification)
    (hx : g.extractText 0 = Except.ok t)
    (hc : g.categorize 0 = Except.ok cls)
    (hcat : cfg.categories.find? (fun e => e.name == cls.category) = none)
    (horg : cfg.enable_organization = true)
    (hmk : g.mkdirExc 0 = none)
    (hmv : g.moveExc 0 = none)
    (hfree : fs.pathExists
      (cfg.watched_folder ++ "/" ++ cls.category ++ "/" ++ "unnamed_file" ++ lowerStr file.suffix)
      = false) :
    (process_file g cfg file fs).2.1 = Outcome.placed
      (cfg.watched_folder ++ "/" ++ cls.category ++ "/" ++ "unnamed_file" ++ lowerStr file.suffix) ∧
    (cfg.watched_folder ++ "/" ++ cls.category) ∈ (process_file g cfg file fs).1.dirs ∧
    (process_file g cfg file fs).2.2.genCalls = 0 := by
  have hfree₁ := pathExists_ensure fs cfg.watched_folder cls.category _ hfree
    (child_ne_folder (cfg.watched_folder ++ "/" ++ cls.category) "unnamed_file" (lowerStr file.suffix))
  have hres := resolveConflict_zero
    ((ensure_category_folder fs cfg.watched_folder cls.category).1).pathExists
    (cfg.watched_folder ++ "/" ++ cls.category) "unnamed_file" (lowerStr file.suffix)
    (((ensure_category_folder fs cfg.watched_folder cls.category).1).files.length +
      ((ensure_category_folder fs cfg.watched_folder cls.category).1).dirs.length + 1)
    (by simpa [destCandidate] using hfree₁)
  have hsnd : (ensure_category_folder fs cfg.watched_folder cls.category).2 =
      cfg.watched_folder ++ "/" ++ cls.category := rfl
  have hrun : process_file g cfg file fs =
      ({ files := (cfg.watched_folder ++ "/" ++ cls.category ++ "/" ++ "unnamed_file" ++ lowerStr file.suffix)
             :: ((ensure_category_folder fs cfg.watched_folder cls.category).1).files.erase file.path,
         dirs := ((ensure_category_folder fs cfg.watched_folder cls.category).1).dirs },
       Outcome.placed
         (cfg.watched_folder ++ "/" ++ cls.category ++ "/" ++ "unnamed_file" ++ lowerStr file.suffix),
       ⟨1, 0, [], 0, 0⟩) := by
    have hbody : attemptBody g cfg file fs Log.init 0 =
        ({ files := (cfg.watched_folder ++ "/" ++ cls.category ++ "/" ++ "unnamed_file" ++ lowerStr file.suffix)
               :: ((ensure_category_folder fs cfg.watched_folder cls.category).1).files.erase file.path,
           dirs := ((ensure_category_folder fs cfg.watched_folder cls.category).1).dirs },
         ⟨1, 0, [], 0, 0⟩,
         Except.ok (cfg.watched_folder ++ "/" ++ cls.category ++ "/" ++ "unnamed_file" ++ lowerStr file.suffix)) := by
      simp [attemptBody, hx, hc, get_naming_pattern, hcat, horg, hmk, hmv, hsnd, hres,
        destCandidate, Log.init]
    simp [process_file, maxRetries, processFrom, hbody]
  rw [hrun]
  exact ⟨rfl, mem_dirs_ensure fs cfg.watched_folder cls.category, rfl⟩

/-- Witness for the amended C2 at the concrete counterexample input. -/
theorem process_file_unknown_category_amended_witness :
    (process_file c2Gateways c2Config c2File c2Fs).2.1 =
      Outcome.placed ("W" ++ "/" ++ "Mystery" ++ "/" ++ "unnamed_file" ++ lowerStr ".pdf") ∧
    ("W" ++ "/" ++ "Mystery") ∈ (process_file c2Gateways c2Config c2File c2Fs).1.dirs ∧
    (process_file c2Gateways c2Config c2File c2Fs).2.2.genCalls = 0 :=
  process_file_unknown_category_amended c2Gateways c2Config c2File c2Fs
    "Meeting notes" ⟨"Mystery", 88, "looks mysterious"⟩
    rfl rfl (by decide) rfl rfl rfl (by decide)

/-- Gateways for the C3 counterexample: classification resolves to a
catalogue category whose enrolled naming pattern is empty. -/
def c3Gateways : Gateways :=
  ⟨fun _ => Except.ok "Weekly meeting notes",
   fun _ => Except.ok ⟨"Notes", 70, "free-form notes"⟩,
   fun _ => Except.ok "unused",
   fun _ => none,
   fun _ => none⟩

/-- Catalogue for the C3 counterexample: `Notes` has no usable naming
pattern (empty string). -/
def c3Config : HandlerConfig :=
  ⟨"W", false, [⟨"Notes", "Meeting notes", ""⟩]⟩

/-- Source file for the C3 counterexample; its stem is `draft2024`. -/
def c3File : SrcFile := ⟨"W", "draft2024", ".docx"⟩

/-- Initial filesystem for the C3 counterexample. -/
def c3Fs : FS := ⟨["W/draft2024.docx"], []⟩

/-- C3 counterexample: with no usable naming pattern for the resolved
category, the pipeline renames the file to `unnamed_file.docx`, NOT to
its original stem `draft2024` — the claimed filename-stem fallback does
not exist in the code (the fallback constant is `unnamed_file`).  Value
extraction is indeed skipped (no generation-gateway call). -/
theorem process_file_no_pattern_counterexample :
    process_file c3Gateways c3Config c3File c3Fs =
      (⟨["W/unnamed_file.docx"], []⟩, Outcome.placed "W/unnamed_file.docx", ⟨1, 0, [], 0, 0⟩) ∧
    c3File.stem = "draft2024" ∧
    ("unnamed_file" : String) ≠ "draft2024" := by
  exact ⟨by decide, by decide, by decide⟩

/-- C3 amended: for a resolved category with a missing or empty naming
pattern, the pipeline substitutes the literal string `unnamed_file` (not
the filename stem) as the stem and skips value extraction entirely —
the generation gateway is never called. -/
theorem process_file_no_pattern_amended (g : Gateways) (cfg : HandlerConfig)
    (file : SrcFile) (fs : FS) (t : String) (cls : Classification)
    (hx : g.extractText 0 = Except.ok t)
    (hc : g.categorize 0 = Except.ok cls)
    (hpat : get_naming_pattern cls.category cfg.categories = none ∨
            get_naming_pattern cls.category cfg.categories = some "")
    (horg : cfg.enable_organization = false)
    (hmv : g.moveExc 0 = none)
    (hfree : fs.pathExists (cfg.watched_folder ++ "/" ++ "unnamed_file" ++ lowerStr file.suffix)
      = false) :
    (process_file g cfg file fs).2.1 =
      Outcome.placed (cfg.watched_folder ++ "/" ++ "unnamed_file" ++ lowerStr file.suffix) ∧
    (process_file g cfg file fs).1.dirs = fs.dirs ∧
    (process_file g cfg file fs).2.2.genCalls = 0 ∧
    (process_file g cfg file fs).1.files =
      (cfg.watched_folder ++ "/" ++ "unnamed_file" ++ lowerStr file.suffix)
        :: fs.files.erase file.path := by
  have hres := resolveConflict_zero fs.pathExists cfg.watched_folder "unnamed_file"
    (lowerStr file.suffix) (fs.files.length + fs.dirs.length + 1)
    (by simpa [destCandidate] using hfree)
  have hbody : attemptBody g cfg file fs Log.init 0 =
      ({ files := (cfg.watched_folder ++ "/" ++ "unnamed_file" ++ lowerStr file.suffix)
             :: fs.files.erase file.path,
         dirs := fs.dirs },
       ⟨1, 0, [], 0, 0⟩,
       Except.ok (cfg.watched_folder ++ "/" ++ "unnamed_file" ++ lowerStr file.suffix)) := by
    rcases hpat with hpat | hpat <;>
      simp [attemptBody, hx, hc, hpat, horg, hmv, hres, destCandidate, Log.init]
  have hrun : process_file g cfg file fs =
      ({ files := (cfg.watched_folder ++ "/" ++ "unnamed_file" ++ lowerStr file.suffix)
             :: fs.files.erase file.path,
         dirs := fs.dirs },
       Outcome.placed (cfg.watched_folder ++ "/" ++ "unnamed_file" ++ lowerStr file.suffix),
       ⟨1, 0, [], 0, 0⟩) := by
    simp [process_file, maxRetries, processFrom, hbody]
  rw [hrun]
  exact ⟨rfl, rfl, rfl, rfl⟩

/-- Witness for the amended C3 at the concrete counterexample input. -/
theorem process_file_no_pattern_amended_witness :
    (process_file c3Gateways c3Config c3File c3Fs).2.1 =
      Outcome.placed ("W" ++ "/" ++ "unnamed_file" ++ lowerStr ".docx") ∧
    (process_file c3Gateways c3Config c3File c3Fs).1.dirs = c3Fs.dirs ∧
    (process_file c3Gateways c3Config c3File c3Fs).2.2.genCalls = 0 ∧
    (process_file c3Gateways c3Config c3File c3Fs).1.files =
      ("W" ++ "/" ++ "unnamed_file" ++ lowerStr ".docx") :: c3Fs.files.erase c3File.path :=
  process_file_no_pattern_amended c3Gateways c3Config c3File c3Fs
    "Weekly meeting notes" ⟨"Notes", 70, "free-form notes"⟩
    rfl rfl (Or.inr (by decide)) rfl rfl (by decide)

/-- Creating the category folder never touches the files. -/
theorem ensure_files (fs : FS) (base cat : String) :
    ((ensure_category_folder fs base cat).1).files = fs.files := by
  by_cases hc : (base ++ "/" ++ cat) ∈ fs.dirs <;> simp [ensure_category_folder, hc]

/-- C6: On a successfully processed document the destination filename is
the rendered stem with the original extension appended case-normalized
to lowercase.  With organization enabled the file is moved into the
category-named subfolder of the watched root (created on demand); with
organization disabled it stays in the watched root under the new name
and the set of directories is unchanged. -/
theorem process_file_placement_spec (g : Gateways) (cfg : HandlerConfig)
    (file : SrcFile) (fs : FS) (t : String) (cls : Classification) (p n : String)
    (hx : g.extractText 0 = Except.ok t)
    (hc : g.categorize 0 = Except.ok cls)
    (hpat : get_naming_pattern cls.category cfg.categories = some p)
    (hpne : p ≠ "")
    (hgen : g.generate 0 = Except.ok n)
    (hmk : g.mkdirExc 0 = none)
    (hmv : g.moveExc 0 = none)
    (hfree₁ : fs.pathExists
      (cfg.watched_folder ++ "/" ++ cls.category ++ "/" ++ n ++ lowerStr file.suffix) = false)
    (hfree₂ : fs.pathExists (cfg.watched_folder ++ "/" ++ n ++ lowerStr file.suffix) = false) :
    (cfg.enable_organization = true →
      (process_file g cfg file fs).2.1 = Outcome.placed
        (cfg.watched_folder ++ "/" ++ cls.category ++ "/" ++ n ++ lowerStr file.suffix) ∧
      (cfg.watched_folder ++ "/" ++ cls.category) ∈ (process_file g cfg file fs).1.dirs ∧
      (process_file g cfg file fs).1.files =
        (cfg.watched_folder ++ "/" ++ cls.category ++ "/" ++ n ++ lowerStr file.suffix)
          :: fs.files.erase file.path) ∧
    (cfg.enable_organization = false →
      (process_file g cfg file fs).2.1 = Outcome.placed
        (cfg.watched_folder ++ "/" ++ n ++ lowerStr file.suffix) ∧
      (process_file g cfg file fs).1.dirs = fs.dirs ∧
      (process_file g cfg file fs).1.files =
        (cfg.watched_folder ++ "/" ++ n ++ lowerStr file.suffix)
          :: fs.files.erase file.path) := by
  constructor
  · intro horg
    have hfree₁' := pathExists_ensure fs cfg.watched_folder cls.category _ hfree₁
      (child_ne_folder (cfg.watched_folder ++ "/" ++ cls.category) n (lowerStr file.suffix))
    have hres := resolveConflict_zero
      ((ensure_category_folder fs cfg.watched_folder cls.category).1).pathExists
      (cfg.watched_folder ++ "/" ++ cls.category) n (lowerStr file.suffix)
      (((ensure_category_folder fs cfg.watched_folder cls.category).1).files.length +
        ((ensure_category_folder fs cfg.watched_folder cls.category).1).dirs.length + 1)
      (by simpa [destCandidate] using hfree₁')
    have hsnd : (ensure_category_folder fs cfg.watched_folder cls.category).2 =
        cfg.watched_folder ++ "/" ++ cls.category := rfl
    have hbody : attemptBody g cfg file fs Log.init 0 =
        ({ files := (cfg.watched_folder ++ "/" ++ cls.category ++ "/" ++ n ++ lowerStr file.suffix)
               :: ((ensure_category_folder fs cfg.watched_folder cls.category).1).files.erase file.path,
           dirs := ((ensure_category_folder fs cfg.watched_folder cls.category).1).dirs },
         ⟨1, 0, [], 0, 1⟩,
         Except.ok (cfg.watched_folder ++ "/" ++ cls.category ++ "/" ++ n ++ lowerStr file.suffix)) := by
      simp [attemptBody, hx, hc, hpat, hpne, hgen, horg, hmk, hmv, hsnd, hres,
        destCandidate, Log.init]
    have hrun : process_file g cfg file fs =
        ({ files := (cfg.watched_folder ++ "/" ++ cls.category ++ "/" ++ n ++ lowerStr file.suffix)
               :: ((ensure_category_folder fs cfg.watched_folder cls.category).1).files.erase file.path,
           dirs := ((ensure_category_folder fs cfg.watched_folder cls.category).1).dirs },
         Outcome.placed (cfg.watched_folder ++ "/" ++ cls.category ++ "/" ++ n ++ lowerStr file.suffix),
         ⟨1, 0, [], 0, 1⟩) := by
      simp [process_file, maxRetries, processFrom, hbody]
    rw [hrun]
    exact ⟨rfl, mem_dirs_ensure fs cfg.watched_folder cls.category,
      by simp [ensure_files]⟩
  · intro horg
    have hres := resolveConflict_zero fs.pathExists cfg.watched_folder n
      (lowerStr file.suffix) (fs.files.length + fs.dirs.length + 1)
      (by simpa [destCandidate] using hfree₂)
    have hbody : attemptBody g cfg file fs Log.init 0 =
        ({ files := (cfg.watched_folder ++ "/" ++ n ++ lowerStr file.suffix)
               :: fs.files.erase file.path,
           dirs := fs.dirs },
         ⟨1, 0, [], 0, 1⟩,
         Except.ok (cfg.watched_folder ++ "/" ++ n ++ lowerStr file.suffix)) := by
      simp [attemptBody, hx, hc, hpat, hpne, hgen, horg, hmv, hres, destCandidate, Log.init]
    have hrun : process_file g cfg file fs =
        ({ files := (cfg.watched_folder ++ "/" ++ n ++ lowerStr file.suffix)
               :: fs.files.erase file.path,
           dirs := fs.dirs },
         Outcome.placed (cfg.watched_folder ++ "/" ++ n ++ lowerStr file.suffix),
         ⟨1, 0, [], 0, 1⟩) := by
      simp [process_file, maxRetries, processFrom, hbody]
    rw [hrun]
    exact ⟨rfl, rfl, rfl⟩

/-- Gateways for the C6 witness: the spec's end-to-end scenario
(`Invoices`, rendered stem `Acme_001`). -/
def c6Gateways : Gateways :=
  ⟨fun _ => Except.ok "Invoice from Acme, number 001",
   fun _ => Except.ok ⟨"Invoices", 95, "it is an invoice"⟩,
   fun _ => Except.ok "Acme_001",
   fun _ => none,
   fun _ => none⟩

/-- Catalogue for the C6 witness. -/
def c6Config : HandlerConfig :=
  ⟨"W", true, [⟨"Invoices", "Customer invoices", "{company}_{invoice_id}"⟩]⟩

/-- Source file for the C6 witness (extension `.PDF` to exercise the
lowercase normalization). -/
def c6File : SrcFile := ⟨"W", "invoice", ".PDF"⟩

/-- Initial filesystem for the C6 witness. -/
def c6Fs : FS := ⟨["W/invoice.PDF"], []⟩

/-- Witness for C6: with organization enabled the file lands in
`W/Invoices/Acme_001.pdf` (extension lowercased) and the category folder
is created. -/
theorem process_file_placement_spec_witness :
    (process_file c6Gateways c6Config c6File c6Fs).2.1 =
      Outcome.placed ("W" ++ "/" ++ "Invoices" ++ "/" ++ "Acme_001" ++ lowerStr ".PDF") ∧
    ("W" ++ "/" ++ "Invoices") ∈ (process_file c6Gateways c6Config c6File c6Fs).1.dirs ∧
    (process_file c6Gateways c6Config c6File c6Fs).1.files =
      ("W" ++ "/" ++ "Invoices" ++ "/" ++ "Acme_001" ++ lowerStr ".PDF")
        :: c6Fs.files.erase c6File.path :=
  (process_file_placement_spec c6Gateways c6Config c6File c6Fs
    "Invoice from Acme, number 001" ⟨"Invoices", 95, "it is an invoice"⟩
    "{company}_{invoice_id}" "Acme_001"
    rfl rfl (by decide) (by decide) rfl rfl rfl (by decide) (by decide)).1 rfl

/-- Dropping every catalogue entry named `c` does not change lookups for
other names. -/
theorem find_filter_ne (cats : List Category) (c c' : String) (hne : c' ≠ c) :
    (cats.filter (fun e => e.name != c)).find? (fun e => e.name == c') =
    cats.find? (fun e => e.name == c') := by
  induction cats with
  | nil => rfl
  | cons a rest ih =>
    by_cases hac : a.name = c
    · have h1 : (a.name != c) = false := by simp [hac]
      have h2 : (a.name == c') = false := by
        simp [hac]
        exact fun h => hne h.symm
      simp [List.filter_cons, h1, List.find?_cons, h2, ih]
    · have h1 : (a.name != c) = true := by simp [hac]
      simp only [List.filter_cons, h1, if_true]
      rw [List.find?_cons, List.find?_cons]
      cases hcp : (a.name == c') <;> simp [ih]

theorem find_filter_self (cats : List Category) (c : String) :
    (cats.filter (fun e => e.name != c)).find? (fun e => e.name == c) = none := by
  induction cats with
  | nil => rfl
  | cons a rest ih =>
    by_cases hac : a.name = c
    · have h1 : (a.name != c) = false := by simp [hac]
      simp [List.filter_cons, h1, ih]
    · have h1 : (a.name != c) = true := by simp [hac]
      have h2 : (a.name == c) = false := by simp [hac]
      simp only [List.filter_cons, h1, if_true]
      rw [List.find?_cons]
      simp [h2, ih]


/-- An attempt behaves identically under a catalogue where `c`'s pattern
is the empty string and under the catalogue with `c` removed: the
`if not naming_pattern` test sends both to the same fallback branch. -/
theorem attemptBody_empty_pattern_congr (g : Gateways) (watched : String) (org : Bool)
    (cats : List Category) (c : String)
    (hempty : get_naming_pattern c cats = some "")
    (file : SrcFile) (fs : FS) (log : Log) (attempt : Nat) :
    attemptBody g ⟨watched, org, cats⟩ file fs log attempt =
    attemptBody g ⟨watched, org, cats.filter (fun e => e.name != c)⟩ file fs log attempt := by
  unfold attemptBody
  cases hx : g.extractText attempt with
  | error e => rfl
  | ok t =>
    cases hc : g.categorize attempt with
    | error e => rfl
    | ok cls =>
      by_cases hcc : cls.category = c
      · have h₁ : get_naming_pattern cls.category cats = some "" := by rw [hcc]; exact hempty
        have h₂ : get_naming_pattern cls.category (cats.filter (fun e => e.name != c)) = none := by
          rw [hcc]
          unfold get_naming_pattern
          rw [find_filter_self cats c]
        simp [h₁, h₂]
      · have h₂ : get_naming_pattern cls.category (cats.filter (fun e => e.name != c)) =
            get_naming_pattern cls.category cats := by
          unfold get_naming_pattern
          rw [find_filter_ne cats c cls.category hcc]
        simp [h₂]

/-- Pointwise-equal attempt bodies give equal retry loops. -/
theorem processFrom_congr (g : Gateways) (cfg₁ cfg₂ : HandlerConfig) (file : SrcFile)
    (hbody : ∀ fs log attempt, attemptBody g cfg₁ file fs log attempt =
      attemptBody g cfg₂ file fs log attempt) :
    ∀ (rem : Nat) (fs : FS) (log : Log) (attempt : Nat),
      processFrom g cfg₁ file fs log attempt rem = processFrom g cfg₂ file fs log attempt rem := by
  intro rem
  induction rem with
  | zero => intro fs log attempt; rfl
  | succ r ih =>
    intro fs log attempt
    rcases hb : attemptBody g cfg₂ file fs log attempt with ⟨fs₁, log₁, r₁⟩
    have hb₁ : attemptBody g cfg₁ file fs log attempt = (fs₁, log₁, r₁) := by
      rw [hbody]; exact hb
    cases r₁ with
    | ok d => simp [processFrom, hb, hb₁]
    | error e =>
      cases e with
      | perm =>
        by_cases hlt : attempt < maxRetries - 1 <;>
          simp [processFrom, hb, hb₁, hlt] <;> exact ih _ _ _
      | other => simp [processFrom, hb, hb₁]

/-- C10: A catalogue category whose enrolled naming pattern is the empty
string is indistinguishable, at the pipeline's interface, from that
category being absent: for every gateway behavior, file and filesystem,
`process_file` produces identical filesystem, outcome and log (same
fallback branch, same `unnamed_file` stem, no value-extraction calls). -/
theorem process_file_empty_pattern_equiv (g : Gateways) (watched : String) (org : Bool)
    (cats : List Category) (c : String) (file : SrcFile) (fs : FS)
    (hempty : get_naming_pattern c cats = some "") :
    process_file g ⟨watched, org, cats⟩ file fs =
    process_file g ⟨watched, org, cats.filter (fun e => e.name != c)⟩ file fs :=
  processFrom_congr g ⟨watched, org, cats⟩ ⟨watched, org, cats.filter (fun e => e.name != c)⟩
    file (attemptBody_empty_pattern_congr g watched org cats c hempty file)
    maxRetries fs Log.init 0

/-- Gateways for the C10 witness. -/
def c10Gateways : Gateways :=
  ⟨fun _ => Except.ok "Some note text",
   fun _ => Except.ok ⟨"Notes", 80, "notes"⟩,
   fun _ => Except.ok "unused",
   fun _ => none,
   fun _ => none⟩

/-- Catalogue for the C10 witness: `Notes` has an empty pattern. -/
def c10Cats : List Category :=
  [⟨"Notes", "Meeting notes", ""⟩, ⟨"Invoices", "Customer invoices", "{company}"⟩]

/-- Witness for C10 at a concrete input: the run with the empty-pattern
`Notes` entry equals the run with `Notes` removed. -/
theorem process_file_empty_pattern_equiv_witness :
    process_file c10Gateways ⟨"W", true, c10Cats⟩ ⟨"W", "memo", ".pdf"⟩ ⟨["W/memo.pdf"], []⟩ =
    process_file c10Gateways ⟨"W", true, c10Cats.filter (fun e => e.name != "Notes")⟩
      ⟨"W", "memo", ".pdf"⟩ ⟨["W/memo.pdf"], []⟩ :=
  process_file_empty_pattern_equiv c10Gateways "W" true c10Cats "Notes"
    ⟨"W", "memo", ".pdf"⟩ ⟨["W/memo.pdf"], []⟩ (by decide)

end Parafile
